import Mathlib

/-!
Verification of the playconomy wallet-service core against its
natural-language specification.

The development shallowly embeds the balance-mutation core of the service:
the three persisted tables (`wallets`, `exchange_rates`, `wallet_logs`), the
repository operations over them (translated from the SQL constants in
`internal/repository/queries` and from `postgres_repository.go`), and the
service operations `Exchange`, `Spend`, `GetWalletLogs` (translated from
`internal/service/service.go`).  The repository ships two revisions of the
service: the current repository-based one and an earlier revision that talks
to the database directly; where the two differ (log `source` field, history
`operation` derivation) both are embedded, the earlier one under `Legacy`.

Monetary values (`NUMERIC(20,2)` columns, Go `float64`) are modelled as
rationals; transactions are modelled by explicit state passing: operations
inside a transaction act on a copy of the database state, a commit returns
that copy, and every error path returns the original state (the service
defers `tx.Rollback()`, so uncommitted changes are discarded).
-/

namespace WalletSpec

/-- Wallet row of the `wallets` table (`internal/model`: `Wallet`). -/
structure Wallet where
  ID : Nat
  UserID : Nat
  Balance : ℚ
  CreatedAt : Nat
deriving Repr, DecidableEq

/-- Exchange-rate row of the `exchange_rates` table (`internal/model`:
`ExchangeRate`; the conversion column is `to_platform_ratio`, renamed here
to `ToPlatformRate`). -/
structure ExchangeRate where
  ID : Nat
  GameID : String
  TokenType : String
  ToPlatformRate : ℚ
  CreatedAt : Nat
deriving Repr, DecidableEq

/-- Audit row of the `wallet_logs` table (`internal/model`: `WalletLog`). -/
structure WalletLog where
  ID : Nat
  WalletID : Nat
  UserID : Nat
  GameID : Option String
  TokenType : Option String
  Amount : ℚ
  PlatformAmount : ℚ
  Source : String
  ReferenceID : Option String
  CreatedAt : Nat
deriving Repr, DecidableEq

/-- Database state: the three tables plus generated-column counters and a
clock supplying `created_at` defaults. -/
structure WalletDB where
  wallets : List Wallet
  exchangeRates : List ExchangeRate
  walletLogs : List WalletLog
  nextWalletID : Nat
  nextLogID : Nat
  now : Nat
deriving Repr, DecidableEq

/-- Transaction-type constant `model.TransactionExchange`. -/
def TransactionExchange : String := "exchange"

/-- Transaction-type constant `model.TransactionSpend`. -/
def TransactionSpend : String := "spend"

/-- Errors surfaced by the wallet operations (`fmt.Errorf` values in
`service.go` and `postgres_repository.go`). -/
inductive WalletError where
  | rateNotFound (gameID tokenType : String)
  | walletNotFound (userID : Nat)
  | insufficientFunds (balance required : ℚ)
  | storageFailure
deriving Repr, DecidableEq

/-- Exchange request DTO (`dto.ExchangeRequest`). -/
structure ExchangeRequest where
  UserID : Nat
  GameID : String
  TokenType : String
  Amount : ℚ
  Source : String
deriving Repr, DecidableEq

/-- Spend request DTO (`dto.SpendRequest`). -/
structure SpendRequest where
  UserID : Nat
  Amount : ℚ
  Reason : String
  ReferenceID : String
deriving Repr, DecidableEq

/-- Log-entry DTO returned by the history operation
(`dto.WalletLogEntry`). -/
structure WalletLogEntry where
  GameID : Option String
  TokenType : Option String
  Source : Option String
  OriginalAmount : ℚ
  ConvertedAmount : ℚ
  Operation : String
  ReferenceID : Option String
  CreatedAt : Nat
deriving Repr, DecidableEq

namespace PostgresRepository

/-- Repository read `GetWalletByUserID`: `SELECT id, user_id, balance,
created_at FROM wallets WHERE user_id = $1` (unlocked single-row read). -/
def GetWalletByUserID (db : WalletDB) (userID : Nat) : Option Wallet :=
  db.wallets.find? (fun w => w.UserID == userID)

/-- Repository read `GetWalletByUserIDForUpdate`: the same `SELECT` with
`FOR UPDATE`, executed inside the enclosing transaction.  The row lock it
takes matters only under concurrency and is modelled separately by
`SpendRace`; the value read is that of the wallet row. -/
def GetWalletByUserIDForUpdate (db : WalletDB) (userID : Nat) : Option Wallet :=
  db.wallets.find? (fun w => w.UserID == userID)

/-- Repository write `CreateWallet`: `INSERT INTO wallets (user_id, balance)
VALUES ($1, $2) RETURNING id, user_id, balance, created_at`. -/
def CreateWallet (db : WalletDB) (userID : Nat) (initialBalance : ℚ) :
    Wallet × WalletDB :=
  let w : Wallet :=
    { ID := db.nextWalletID, UserID := userID, Balance := initialBalance,
      CreatedAt := db.now }
  (w, { db with wallets := db.wallets ++ [w], nextWalletID := db.nextWalletID + 1 })

/-- Repository write `UpdateWalletBalance`: `UPDATE wallets SET balance = $2
WHERE user_id = $1 RETURNING ...`.  No row matched is `sql.ErrNoRows`,
surfaced as `none`; the returned row is the first updated one
(`QueryRowContext`). -/
def UpdateWalletBalance (db : WalletDB) (userID : Nat) (newBalance : ℚ) :
    Option Wallet × WalletDB :=
  match db.wallets.find? (fun w => w.UserID == userID) with
  | none => (none, db)
  | some w =>
    (some { w with Balance := newBalance },
     { db with wallets := (db.wallets.map (fun v =>
        if v.UserID = userID then { v with Balance := newBalance } else v)) })

/-- Repository write `SpendFromWallet`, running `QuerySpendFromWallet`:
`UPDATE wallets SET balance = balance - $2 WHERE user_id = $1 AND
balance >= $2 RETURNING ...`.  Zero rows affected (`sql.ErrNoRows`) means
insufficient funds and is surfaced as `none` with the state unchanged. -/
def SpendFromWallet (db : WalletDB) (userID : Nat) (amount : ℚ) :
    Option Wallet × WalletDB :=
  match db.wallets.find? (fun w => w.UserID == userID && decide (amount ≤ w.Balance)) with
  | none => (none, db)
  | some w =>
    (some { w with Balance := w.Balance - amount },
     { db with wallets := (db.wallets.map (fun v =>
        if v.UserID = userID ∧ amount ≤ v.Balance
        then { v with Balance := v.Balance - amount } else v)) })

/-- Repository read `GetExchangeRate`: `SELECT ... FROM exchange_rates WHERE
game_id = $1 AND token_type = $2`; not-found is a normal outcome
(`none`). -/
def GetExchangeRate (db : WalletDB) (gameID tokenType : String) :
    Option ExchangeRate :=
  db.exchangeRates.find? (fun r => r.GameID == gameID && r.TokenType == tokenType)

/-- Repository write `CreateWalletLog`: `INSERT INTO wallet_logs ...
RETURNING ...`; the generated id and `created_at` default are filled in. -/
def CreateWalletLog (db : WalletDB) (log : WalletLog) : WalletLog × WalletDB :=
  let stored := { log with ID := db.nextLogID, CreatedAt := db.now }
  (stored,
   { db with walletLogs := db.walletLogs ++ [stored], nextLogID := db.nextLogID + 1 })

/-- Descending creation-time order used by `ORDER BY created_at DESC`. -/
def CreatedDesc (a b : WalletLog) : Prop := b.CreatedAt ≤ a.CreatedAt

instance : DecidableRel CreatedDesc := fun a b => Nat.decLe b.CreatedAt a.CreatedAt

instance : IsTotal WalletLog CreatedDesc :=
  ⟨fun a b => (Nat.le_total b.CreatedAt a.CreatedAt).imp id id⟩

instance : IsTrans WalletLog CreatedDesc :=
  ⟨fun _ _ _ hab hbc => Nat.le_trans hbc hab⟩

/-- Repository read `GetWalletLogs`, running `QueryGetWalletLogs`:
`SELECT ... FROM wallet_logs WHERE user_id = $1 ORDER BY created_at DESC
LIMIT $2 OFFSET $3`, after the Go-side default `if limit <= 0 { limit = 50 }`
(`postgres_repository.go`). -/
def GetWalletLogs (db : WalletDB) (userID : Nat) (limit offset : Int) :
    List WalletLog :=
  let lim : Int := if limit ≤ 0 then 50 else limit
  let rows := (db.walletLogs.filter (fun l => l.UserID == userID)).insertionSort CreatedDesc
  (rows.drop offset.toNat).take lim.toNat

end PostgresRepository

namespace WalletService

open PostgresRepository

/-- Service operation `WalletService.Exchange` (repository-based revision).
The argument `logFails` injects a storage failure into the
`CreateWalletLog` call, the only repository step whose failure the
specification's atomicity property quantifies over; every error path
returns the original database (the deferred rollback discards the
transaction).  The branch returning `storageFailure` after
`UpdateWalletBalance` yields `none` is unreachable here (the row was just
read in the same transaction); in Go it would dereference a nil wallet. -/
def Exchange (db : WalletDB) (req : ExchangeRequest) (logFails : Bool) :
    WalletDB × Except WalletError ℚ :=
  match GetExchangeRate db req.GameID req.TokenType with
  | none => (db, Except.error (WalletError.rateNotFound req.GameID req.TokenType))
  | some exchangeRate =>
    let platformAmount := req.Amount * exchangeRate.ToPlatformRate
    let step1 : Option (Wallet × WalletDB) :=
      match GetWalletByUserIDForUpdate db req.UserID with
      | none => some (CreateWallet db req.UserID platformAmount)
      | some wallet =>
        match UpdateWalletBalance db req.UserID (wallet.Balance + platformAmount) with
        | (none, _) => none
        | (some w, tx) => some (w, tx)
    match step1 with
    | none => (db, Except.error WalletError.storageFailure)
    | some (newWallet, tx1) =>
      if logFails then (db, Except.error WalletError.storageFailure)
      else
        let (_, tx2) := CreateWalletLog tx1
          { ID := 0, WalletID := newWallet.ID, UserID := req.UserID,
            GameID := some req.GameID, TokenType := some req.TokenType,
            Amount := req.Amount, PlatformAmount := platformAmount,
            Source := TransactionExchange, ReferenceID := none, CreatedAt := 0 }
        (tx2, Except.ok newWallet.Balance)

/-- Service operation `WalletService.Spend` (repository-based revision):
lock-read the wallet, pre-check the balance, debit through the guarded
`SpendFromWallet` update, append the log, commit.  `logFails` injects a
storage failure into the `CreateWalletLog` call; every error path returns
the original database. -/
def Spend (db : WalletDB) (req : SpendRequest) (logFails : Bool) :
    WalletDB × Except WalletError ℚ :=
  match GetWalletByUserIDForUpdate db req.UserID with
  | none => (db, Except.error (WalletError.walletNotFound req.UserID))
  | some wallet =>
    if wallet.Balance < req.Amount then
      (db, Except.error (WalletError.insufficientFunds wallet.Balance req.Amount))
    else
      match SpendFromWallet db req.UserID req.Amount with
      | (none, _) =>
        (db, Except.error (WalletError.insufficientFunds wallet.Balance req.Amount))
      | (some updatedWallet, tx1) =>
        if logFails then (db, Except.error WalletError.storageFailure)
        else
          let (_, tx2) := CreateWalletLog tx1
            { ID := 0, WalletID := wallet.ID, UserID := req.UserID,
              GameID := none, TokenType := none,
              Amount := -req.Amount, PlatformAmount := -req.Amount,
              Source := req.Reason, ReferenceID := some req.ReferenceID,
              CreatedAt := 0 }
          (tx2, Except.ok updatedWallet.Balance)

/-- Service operation `WalletService.GetWalletLogs` (repository-based
revision): fetch the first page (`limit 50`, `offset 0`) and derive each
entry's `operation` tag from the sign of the stored amount
(`model.TransactionExchange` unless `log.Amount < 0`). -/
def GetWalletLogs (db : WalletDB) (userID : Nat) : List WalletLogEntry :=
  (PostgresRepository.GetWalletLogs db userID 50 0).map (fun log =>
    { GameID := log.GameID, TokenType := log.TokenType,
      Source := some log.Source,
      OriginalAmount := log.Amount, ConvertedAmount := log.PlatformAmount,
      Operation := if log.Amount < (0 : ℚ) then TransactionSpend else TransactionExchange,
      ReferenceID := log.ReferenceID, CreatedAt := log.CreatedAt })

end WalletService

namespace Legacy

open PostgresRepository

/-- SQL `NULLIF(col, '')` on a nullable text column. -/
def nullIfEmpty : Option String → Option String
  | none => none
  | some s => if s = "" then none else some s

/-- History listing of the earlier service revision (`service.go`,
direct-SQL `GetWalletLogs`): no limit, `ORDER BY created_at DESC`, fields
shaped in SQL with `NULLIF(..., '')` and `ABS(amount)`, and the operation
tag derived by `CASE WHEN game_id IS NOT NULL THEN 'exchange' ELSE 'spend'
END`. -/
def GetWalletLogs (db : WalletDB) (userID : Nat) : List WalletLogEntry :=
  ((db.walletLogs.filter (fun l => l.UserID == userID)).insertionSort CreatedDesc).map
    (fun log =>
      { GameID := nullIfEmpty log.GameID, TokenType := nullIfEmpty log.TokenType,
        Source := nullIfEmpty (some log.Source),
        OriginalAmount := abs log.Amount, ConvertedAmount := log.PlatformAmount,
        Operation := if log.GameID.isSome then "exchange" else "spend",
        ReferenceID := nullIfEmpty log.ReferenceID, CreatedAt := log.CreatedAt })

end Legacy

namespace SpendRace

/-- Outcome of one spend transaction in the two-spend race model:
`committed` is a successful debit, `insufficientFunds` the business-rule
rejection of `Spend`. -/
inductive SpendResult where
  | committed
  | insufficientFunds
deriving Repr, DecidableEq

/-- Program counter of one in-flight `Spend` transaction: `start` is before
the `FOR UPDATE` read, `locked` is holding the wallet row lock with the
balance it read, `done` is committed or rolled back. -/
inductive SpendPhase where
  | start
  | locked
  | done
deriving Repr, DecidableEq

/-- Local state of one in-flight `Spend` transaction: `localBal` is the
balance returned by `GetWalletByUserIDForUpdate` (meaningful once the
transaction holds the lock), `result` its outcome once `done`. -/
structure SpendTx where
  pc : SpendPhase
  localBal : ℚ
  result : Option SpendResult
deriving Repr, DecidableEq

/-- Shared state of two concurrent `Spend` calls against one wallet row:
the row's balance, which transaction (if any) holds the `FOR UPDATE` row
lock, and the two transactions.  The scheduler identifies them by a
`Bool`. -/
structure RaceState where
  balance : ℚ
  lockHeld : Option Bool
  tx0 : SpendTx
  tx1 : SpendTx
deriving Repr, DecidableEq

/-- Both transactions poised before their `FOR UPDATE` read. -/
def initState (bal : ℚ) : RaceState :=
  { balance := bal, lockHeld := none,
    tx0 := { pc := SpendPhase.start, localBal := 0, result := none },
    tx1 := { pc := SpendPhase.start, localBal := 0, result := none } }

/-- Transaction selected by the scheduler. -/
def getTx (s : RaceState) : Bool → SpendTx
  | false => s.tx0
  | true => s.tx1

/-- Replace the selected transaction's local state. -/
def setTx (s : RaceState) : Bool → SpendTx → RaceState
  | false, t => { s with tx0 := t }
  | true, t => { s with tx1 := t }

/-- Amount requested by the selected transaction. -/
def pickAmt (amt0 amt1 : ℚ) : Bool → ℚ
  | false => amt0
  | true => amt1

/-- One scheduler step of the race: transaction `i` (spending `amt1` if
`i`, else `amt0`) executes its next atomic action.  A `start` transaction
acquires the row lock and reads the balance, or makes no progress while the
other holds the lock (`FOR UPDATE` blocks).  A `locked` transaction runs the
rest of `WalletService.Spend`: the pre-check `wallet.Balance < req.Amount`
against the balance it read, then the guarded `QuerySpendFromWallet` update
(`balance >= amount` against the current row), then commit, releasing the
lock; a rejection rolls back and also releases the lock. -/
def step (amt0 amt1 : ℚ) (s : RaceState) (i : Bool) : RaceState :=
  let a := pickAmt amt0 amt1 i
  let t := getTx s i
  match t.pc with
  | SpendPhase.start =>
    match s.lockHeld with
    | some _ => s
    | none =>
      { setTx s i { pc := SpendPhase.locked, localBal := s.balance, result := none }
          with lockHeld := some i }
  | SpendPhase.locked =>
    if t.localBal < a then
      { setTx s i { t with pc := SpendPhase.done,
                           result := some SpendResult.insufficientFunds }
          with lockHeld := none }
    else if a ≤ s.balance then
      { setTx s i { t with pc := SpendPhase.done,
                           result := some SpendResult.committed }
          with lockHeld := none, balance := s.balance - a }
    else
      { setTx s i { t with pc := SpendPhase.done,
                           result := some SpendResult.insufficientFunds }
          with lockHeld := none }
  | SpendPhase.done => s

/-- Run the race under a scheduler choice sequence, starting from balance
`bal`. -/
def run (amt0 amt1 : ℚ) (sched : List Bool) (bal : ℚ) : RaceState :=
  sched.foldl (step amt0 amt1) (initState bal)

/-- Reachable states of the race from balance `bal` with spend amounts
`amt0`, `amt1`, enumerated: initial, one transaction holding the lock, the
lock holder committed (the other still waiting or started), the second
transaction locked against the debited balance, and both finished with
exactly one commit.  States in which the first lock holder is rejected do
not arise when each amount alone fits the starting balance. -/
def Inv (amt0 amt1 bal : ℚ) (s : RaceState) : Prop :=
  (s = initState bal)
  ∨ (s = { balance := bal, lockHeld := some false,
           tx0 := { pc := SpendPhase.locked, localBal := bal, result := none },
           tx1 := { pc := SpendPhase.start, localBal := 0, result := none } })
  ∨ (s = { balance := bal, lockHeld := some true,
           tx0 := { pc := SpendPhase.start, localBal := 0, result := none },
           tx1 := { pc := SpendPhase.locked, localBal := bal, result := none } })
  ∨ (s = { balance := bal - amt0, lockHeld := none,
           tx0 := { pc := SpendPhase.done, localBal := bal,
                    result := some SpendResult.committed },
           tx1 := { pc := SpendPhase.start, localBal := 0, result := none } })
  ∨ (s = { balance := bal - amt1, lockHeld := none,
           tx0 := { pc := SpendPhase.start, localBal := 0, result := none },
           tx1 := { pc := SpendPhase.done, localBal := bal,
                    result := some SpendResult.committed } })
  ∨ (s = { balance := bal - amt0, lockHeld := some true,
           tx0 := { pc := SpendPhase.done, localBal := bal,
                    result := some SpendResult.committed },
           tx1 := { pc := SpendPhase.locked, localBal := bal - amt0,
                    result := none } })
  ∨ (s = { balance := bal - amt1, lockHeld := some false,
           tx0 := { pc := SpendPhase.locked, localBal := bal - amt1,
                    result := none },
           tx1 := { pc := SpendPhase.done, localBal := bal,
                    result := some SpendResult.committed } })
  ∨ (s = { balance := bal - amt0, lockHeld := none,
           tx0 := { pc := SpendPhase.done, localBal := bal,
                    result := some SpendResult.committed },
           tx1 := { pc := SpendPhase.done, localBal := bal - amt0,
                    result := some SpendResult.insufficientFunds } })
  ∨ (s = { balance := bal - amt1, lockHeld := none,
           tx0 := { pc := SpendPhase.done, localBal := bal - amt1,
                    result := some SpendResult.insufficientFunds },
           tx1 := { pc := SpendPhase.done, localBal := bal,
                    result := some SpendResult.committed } })

end SpendRace

/-- Fold a list of spend requests (each with its log-failure flag) through
`WalletService.Spend`, keeping the resulting database each time. -/
def SpendSeq (db : WalletDB) (ops : List (SpendRequest × Bool)) : WalletDB :=
  ops.foldl (fun d op => (WalletService.Spend d op.1 op.2).1) db

section Fixtures

/-- Empty database fixture. -/
def emptyDB : WalletDB :=
  { wallets := [], exchangeRates := [], walletLogs := [],
    nextWalletID := 1, nextLogID := 1, now := 0 }

/-- Rate fixture: (game "g1", token "gold") converts at 5/2 = 2.5. -/
def rateG1Gold : ExchangeRate :=
  { ID := 1, GameID := "g1", TokenType := "gold", ToPlatformRate := 5/2,
    CreatedAt := 0 }

/-- Database with the rate configured and no wallet (scenario A). -/
def dbRateOnly : WalletDB :=
  { emptyDB with exchangeRates := [rateG1Gold] }

/-- Wallet fixture: user 1 holding 200.00. -/
def wallet200 : Wallet := { ID := 1, UserID := 1, Balance := 200, CreatedAt := 0 }

/-- Database with the rate configured and user 1 holding 200.00
(scenario B). -/
def dbWalletAndRate : WalletDB :=
  { emptyDB with
    exchangeRates := [rateG1Gold], wallets := [wallet200], nextWalletID := 2 }

/-- Wallet fixture: user 7 holding 100.00 (scenario C). -/
def wallet100 : Wallet := { ID := 1, UserID := 7, Balance := 100, CreatedAt := 0 }

/-- Database with only user 7's wallet holding 100.00. -/
def dbWallet100 : WalletDB :=
  { emptyDB with wallets := [wallet100], nextWalletID := 2 }

/-- Exchange request fixture: user 1 converts 100 "gold" of "g1", tagged
"won". -/
def exReq100 : ExchangeRequest :=
  { UserID := 1, GameID := "g1", TokenType := "gold", Amount := 100,
    Source := "won" }

/-- Exchange request fixture for an unconfigured (game, token) pair. -/
def exReqUnknown : ExchangeRequest :=
  { UserID := 1, GameID := "unknown_game", TokenType := "unknown_token",
    Amount := 100, Source := "won" }

/-- Spend request fixture: user 7 spends 300.00. -/
def spendReq300 : SpendRequest :=
  { UserID := 7, Amount := 300, Reason := "market_purchase",
    ReferenceID := "ORDER-789" }

/-- Spend request fixture: user 7 spends 50.00. -/
def spendReq50 : SpendRequest :=
  { UserID := 7, Amount := 50, Reason := "market_purchase",
    ReferenceID := "ORDER-123" }

/-- Spend request fixture with a non-positive amount: user 7 "spends"
−5.00. -/
def spendReqNeg5 : SpendRequest :=
  { UserID := 7, Amount := -5, Reason := "market_purchase",
    ReferenceID := "ORDER-456" }

/-- Log-row fixture for the history derivation: an exchange-shaped row
(game id populated) whose stored amount is negative. -/
def logNegExchange : WalletLog :=
  { ID := 1, WalletID := 1, UserID := 1, GameID := some "g1",
    TokenType := some "gold", Amount := -5, PlatformAmount := -5,
    Source := "won", ReferenceID := none, CreatedAt := 3 }

/-- Database whose log table holds only `logNegExchange`. -/
def dbNegExchangeLog : WalletDB :=
  { emptyDB with walletLogs := [logNegExchange], nextLogID := 2 }

/-- Two log rows with distinct creation times, stored oldest-first. -/
def dbTwoLogs : WalletDB :=
  { emptyDB with
    walletLogs :=
      [{ ID := 1, WalletID := 1, UserID := 1, GameID := some "g1",
         TokenType := some "gold", Amount := 100, PlatformAmount := 250,
         Source := "won", ReferenceID := none, CreatedAt := 1 },
       { ID := 2, WalletID := 1, UserID := 1, GameID := none,
         TokenType := none, Amount := -50, PlatformAmount := -50,
         Source := "market_purchase", ReferenceID := some "ORDER-123",
         CreatedAt := 2 }],
    nextLogID := 3 }

/-- Log-entry DTO produced for the spend-shaped row of `dbTwoLogs` by the
repository-based history listing. -/
def spendEntryOfTwoLogs : WalletLogEntry :=
  { GameID := none, TokenType := none, Source := some "market_purchase",
    OriginalAmount := -50, ConvertedAmount := -50, Operation := "spend",
    ReferenceID := some "ORDER-123", CreatedAt := 2 }

end Fixtures

/-! Helper lemmas about `List.find?`, shared by several claims. -/

/-- A row found by `find? p` is also the row found when the filter is
strengthened by a guard the row satisfies (no earlier row passes `p`, so
none passes `p && q` either). -/
theorem find?_and_of_find? {α : Type} (p q : α → Bool) (l : List α) (w : α)
    (hp : l.find? p = some w) (hq : q w = true) :
    l.find? (fun x => p x && q x) = some w := by
  induction l with
  | nil => simp at hp
  | cons a tl ih =>
    by_cases ha : p a = true
    · rw [List.find?_cons_of_pos _ ha] at hp
      injection hp with h
      subst h
      exact List.find?_cons_of_pos _ (by simp [ha, hq])
    · rw [List.find?_cons_of_neg _ ha] at hp
      rw [List.find?_cons_of_neg _ (by simp [ha])]
      exact ih hp

/-- Appending a matching row to a list where `find?` failed makes `find?`
return that row. -/
theorem find?_append_of_none {α : Type} (p : α → Bool) (l : List α) (x : α)
    (hl : l.find? p = none) (hx : p x = true) :
    (l ++ [x]).find? p = some x := by
  rw [List.find?_append, hl]
  simp [List.find?_cons_of_pos _ hx]

/-- C3: for every exchange and every spend, a failure of the audit-log
append step makes the whole transaction roll back: the database returned by
the operation is the initial one, so the wallet balance is unchanged and no
log entry survives (balance mutation and log insert are atomic). -/
theorem exchange_spend_log_failure_atomic :
    ∀ (db : WalletDB) (ereq : ExchangeRequest) (sreq : SpendRequest),
      (WalletService.Exchange db ereq true).1 = db ∧
      (WalletService.Spend db sreq true).1 = db := by
  intro db ereq sreq
  constructor
  · unfold WalletService.Exchange
    cases PostgresRepository.GetExchangeRate db ereq.GameID ereq.TokenType with
    | none => rfl
    | some rate =>
      dsimp only
      split
      · rfl
      · rfl
  · unfold WalletService.Spend
    cases PostgresRepository.GetWalletByUserIDForUpdate db sreq.UserID with
    | none => rfl
    | some wallet =>
      dsimp only
      split
      · rfl
      · split
        · rfl
        · rfl

/-- C6: for every exchange request whose (game id, token type) pair has no
configured rate, the operation fails with `rateNotFound` and returns the
database unchanged: no wallet is created and no log entry is written. -/
theorem exchange_rate_not_found_no_effect :
    ∀ (db : WalletDB) (req : ExchangeRequest) (logFails : Bool),
      PostgresRepository.GetExchangeRate db req.GameID req.TokenType = none →
      WalletService.Exchange db req logFails =
        (db, Except.error (WalletError.rateNotFound req.GameID req.TokenType)) := by
  intro db req logFails h
  unfold WalletService.Exchange
  rw [h]

/-- Witness for C6: exchanging against an unconfigured pair in a concrete
database fails with `rateNotFound` and leaves the database as it was. -/
theorem exchange_rate_not_found_no_effect_witness :
    WalletService.Exchange dbWallet100 exReqUnknown false =
      (dbWallet100,
       Except.error (WalletError.rateNotFound "unknown_game" "unknown_token")) :=
  exchange_rate_not_found_no_effect dbWallet100 exReqUnknown false rfl

/-- C7: for every spend request by a user with no wallet row, the operation
fails with `walletNotFound` and returns the database unchanged: no wallet
row and no log entry are created. -/
theorem spend_wallet_not_found_no_effect :
    ∀ (db : WalletDB) (req : SpendRequest) (logFails : Bool),
      PostgresRepository.GetWalletByUserIDForUpdate db req.UserID = none →
      WalletService.Spend db req logFails =
        (db, Except.error (WalletError.walletNotFound req.UserID)) := by
  intro db req logFails h
  unfold WalletService.Spend
  rw [h]

/-- Witness for C7: spending from the empty database fails with
`walletNotFound` and leaves the database empty. -/
theorem spend_wallet_not_found_no_effect_witness :
    WalletService.Spend emptyDB spendReq300 false =
      (emptyDB, Except.error (WalletError.walletNotFound 7)) :=
  spend_wallet_not_found_no_effect emptyDB spendReq300 false rfl

/-- One `Spend` call preserves nonnegativity of every wallet balance: every
rejection path returns the state unchanged, and the success path only
applies the guarded debit `balance >= amount`. -/
theorem spend_preserves_nonneg (db : WalletDB) (req : SpendRequest) (logFails : Bool)
    (h : ∀ w ∈ db.wallets, 0 ≤ w.Balance) :
    ∀ w ∈ (WalletService.Spend db req logFails).1.wallets, 0 ≤ w.Balance := by
  unfold WalletService.Spend
  split
  · exact h
  · split
    · exact h
    · split
      · exact h
      · rename_i updatedWallet tx1 heq
        split
        · exact h
        · intro w hw
          simp only [PostgresRepository.CreateWalletLog] at hw
          unfold PostgresRepository.SpendFromWallet at heq
          split at heq
          · simp at heq
          · simp only [Prod.mk.injEq] at heq
            rw [← heq.2] at hw
            simp only [List.mem_map] at hw
            obtain ⟨v, hv, rfl⟩ := hw
            by_cases hc : v.UserID = req.UserID ∧ req.Amount ≤ v.Balance
            · simp only [if_pos hc]
              have := h v hv
              linarith [hc.2]
            · simp only [if_neg hc]
              exact h v hv

/-- C1: a spend against an existing wallet whose balance is strictly below
the requested amount fails with `insufficientFunds` and returns the
database unchanged; consequently any sequence of spend operations started
from nonnegative balances keeps every balance nonnegative. -/
theorem spend_insufficient_rejected_and_balances_nonneg :
    (∀ (db : WalletDB) (req : SpendRequest) (logFails : Bool) (w : Wallet),
        PostgresRepository.GetWalletByUserIDForUpdate db req.UserID = some w →
        w.Balance < req.Amount →
        WalletService.Spend db req logFails =
          (db, Except.error (WalletError.insufficientFunds w.Balance req.Amount)))
    ∧ (∀ (db : WalletDB) (ops : List (SpendRequest × Bool)),
        (∀ w ∈ db.wallets, 0 ≤ w.Balance) →
        ∀ w ∈ (SpendSeq db ops).wallets, 0 ≤ w.Balance) := by
  constructor
  · intro db req logFails w hfind hlt
    unfold WalletService.Spend
    rw [hfind]
    dsimp only
    rw [if_pos hlt]
  · intro db ops
    induction ops generalizing db with
    | nil => intro h; exact h
    | cons op tl ih =>
      intro h
      simp only [SpendSeq, List.foldl_cons]
      exact ih _ (spend_preserves_nonneg _ op.1 op.2 h)

/-- Witness for C1: spending 300.00 from a 100.00 wallet fails with
`insufficientFunds` leaving the database unchanged, and running a concrete
sequence of spends from that database keeps all balances nonnegative. -/
theorem spend_insufficient_rejected_and_balances_nonneg_witness :
    (WalletService.Spend dbWallet100 spendReq300 false =
      (dbWallet100, Except.error (WalletError.insufficientFunds 100 300)))
    ∧ (∀ w ∈ (SpendSeq dbWallet100 [(spendReq300, false), (spendReq50, false)]).wallets,
        0 ≤ w.Balance) :=
  ⟨spend_insufficient_rejected_and_balances_nonneg.1 dbWallet100 spendReq300 false
      wallet100 rfl (by decide),
   spend_insufficient_rejected_and_balances_nonneg.2 dbWallet100
      [(spendReq300, false), (spendReq50, false)] (by decide)⟩

/-- C2: for every exchange with a configured rate and positive amount, if
the user has no wallet a wallet is created and the operation returns
amount·rate as the new balance, and if the user already holds balance `b`
the operation returns `b` + amount·rate. -/
theorem exchange_new_balance :
    ∀ (db : WalletDB) (req : ExchangeRequest) (rate : ExchangeRate),
      PostgresRepository.GetExchangeRate db req.GameID req.TokenType = some rate →
      0 < req.Amount →
      ((PostgresRepository.GetWalletByUserIDForUpdate db req.UserID = none →
          (WalletService.Exchange db req false).2 =
            Except.ok (req.Amount * rate.ToPlatformRate) ∧
          (∃ w, PostgresRepository.GetWalletByUserID
              (WalletService.Exchange db req false).1 req.UserID = some w ∧
              w.Balance = req.Amount * rate.ToPlatformRate))
       ∧ (∀ w, PostgresRepository.GetWalletByUserIDForUpdate db req.UserID = some w →
          (WalletService.Exchange db req false).2 =
            Except.ok (w.Balance + req.Amount * rate.ToPlatformRate))) := by
  intro db req rate hrate _hpos
  constructor
  · intro hnone
    unfold WalletService.Exchange
    rw [hrate]
    dsimp only
    rw [hnone]
    dsimp only
    constructor
    · rfl
    · refine ⟨{ ID := db.nextWalletID, UserID := req.UserID,
                Balance := req.Amount * rate.ToPlatformRate, CreatedAt := db.now },
              ?_, rfl⟩
      unfold PostgresRepository.GetWalletByUserID
      unfold PostgresRepository.GetWalletByUserIDForUpdate at hnone
      simp only [PostgresRepository.CreateWalletLog, PostgresRepository.CreateWallet]
      exact find?_append_of_none _ db.wallets _ hnone (by simp)
  · intro w hsome
    unfold WalletService.Exchange
    rw [hrate]
    dsimp only
    rw [hsome]
    dsimp only
    unfold PostgresRepository.GetWalletByUserIDForUpdate at hsome
    unfold PostgresRepository.UpdateWalletBalance
    rw [hsome]
    rfl

/-- Witness for C2: scenario A (no wallet, amount 100 at rate 2.5 yields a
new wallet with balance 250.00) and scenario B (balance 200.00, same
exchange yields 450.00). -/
theorem exchange_new_balance_witness :
    ((WalletService.Exchange dbRateOnly exReq100 false).2 = Except.ok 250 ∧
     (∃ w, PostgresRepository.GetWalletByUserID
         (WalletService.Exchange dbRateOnly exReq100 false).1 1 = some w ∧
         w.Balance = 250)) ∧
    (WalletService.Exchange dbWalletAndRate exReq100 false).2 = Except.ok 450 := by
  refine ⟨⟨?_, ?_⟩, ?_⟩
  · have h := (exchange_new_balance dbRateOnly exReq100 rateG1Gold rfl (by decide)).1 rfl
    rw [h.1]
    norm_num [exReq100, rateG1Gold]
  · have h := (exchange_new_balance dbRateOnly exReq100 rateG1Gold rfl (by decide)).1 rfl
    obtain ⟨w, hw1, hw2⟩ := h.2
    exact ⟨w, hw1, by rw [hw2]; norm_num [exReq100, rateG1Gold]⟩
  · have h := (exchange_new_balance dbWalletAndRate exReq100 rateG1Gold rfl
      (by decide)).2 wallet200 rfl
    rw [h]
    norm_num [exReq100, rateG1Gold, wallet200]

/-- Counterexample to C4 as stated: a successful exchange whose request
carries the tag "won" appends a log entry whose source field is the
constant "exchange", not the supplied tag. -/
theorem exchange_log_source_counterexample :
    ((WalletService.Exchange dbRateOnly exReq100 false).1.walletLogs.map
        (fun l => l.Source) = ["exchange"])
    ∧ exReq100.Source = "won" :=
  ⟨rfl, rfl⟩

/-- C4 amended: for every successful exchange with positive amount and
positive configured rate, the appended log entry has amounts (source
amount, platform amount), both positive, carries the request's game id and
token type, and has its source field equal to the constant tag "exchange"
(`model.TransactionExchange`; the repository-based revision does not store
the request's supplied tag, which the earlier direct-SQL revision did). -/
theorem exchange_log_entry_fields :
    ∀ (db : WalletDB) (req : ExchangeRequest) (rate : ExchangeRate),
      PostgresRepository.GetExchangeRate db req.GameID req.TokenType = some rate →
      0 < req.Amount → 0 < rate.ToPlatformRate →
      ∃ entry,
        (WalletService.Exchange db req false).1.walletLogs =
          db.walletLogs ++ [entry] ∧
        entry.Amount = req.Amount ∧
        entry.PlatformAmount = req.Amount * rate.ToPlatformRate ∧
        0 < entry.Amount ∧ 0 < entry.PlatformAmount ∧
        entry.GameID = some req.GameID ∧ entry.TokenType = some req.TokenType ∧
        entry.Source = TransactionExchange := by
  intro db req rate hrate hpos hrpos
  unfold WalletService.Exchange
  rw [hrate]
  dsimp only
  cases hfind : PostgresRepository.GetWalletByUserIDForUpdate db req.UserID with
  | none =>
    dsimp only
    exact ⟨_, rfl, rfl, rfl, hpos, mul_pos hpos hrpos, rfl, rfl, rfl⟩
  | some w =>
    unfold PostgresRepository.GetWalletByUserIDForUpdate at hfind
    unfold PostgresRepository.UpdateWalletBalance
    rw [hfind]
    dsimp only
    exact ⟨_, rfl, rfl, rfl, hpos, mul_pos hpos hrpos, rfl, rfl, rfl⟩

/-- Witness for the amended C4 at scenario A's database: the appended entry
carries (100, 100·2.5), both positive, the request's game fields, and the
constant source "exchange". -/
theorem exchange_log_entry_fields_witness :
    ∃ entry,
      (WalletService.Exchange dbRateOnly exReq100 false).1.walletLogs =
        dbRateOnly.walletLogs ++ [entry] ∧
      entry.Amount = exReq100.Amount ∧
      entry.PlatformAmount = exReq100.Amount * rateG1Gold.ToPlatformRate ∧
      0 < entry.Amount ∧ 0 < entry.PlatformAmount ∧
      entry.GameID = some exReq100.GameID ∧
      entry.TokenType = some exReq100.TokenType ∧
      entry.Source = TransactionExchange :=
  exchange_log_entry_fields dbRateOnly exReq100 rateG1Gold rfl (by decide)
    (by norm_num [rateG1Gold])

/-- Counterexample to C5 as stated: the earlier revision's history listing
derives the tag with `CASE WHEN game_id IS NOT NULL`, so a stored row with
negative amount but populated game id is reported as "exchange", where the
claim requires "spend". -/
theorem history_tag_sign_counterexample :
    ((Legacy.GetWalletLogs dbNegExchangeLog 1).map (fun e => e.Operation) =
      ["exchange"])
    ∧ logNegExchange.Amount < 0 := by
  constructor
  · rfl
  · decide

/-- C5 amended: in the repository-based service revision every returned
history entry's operation tag is a function of the stored amount's sign
only (negative amount → "spend", otherwise "exchange"), regardless of the
stored source tag or any other field; the earlier revision's SQL-side
listing instead derives the tag from whether the game-id column is null. -/
theorem history_tag_from_amount_sign :
    ∀ (db : WalletDB) (userID : Nat) (e : WalletLogEntry),
      e ∈ WalletService.GetWalletLogs db userID →
      e.Operation =
        if e.OriginalAmount < 0 then TransactionSpend else TransactionExchange := by
  intro db u e he
  unfold WalletService.GetWalletLogs at he
  rw [List.mem_map] at he
  obtain ⟨log, _, rfl⟩ := he
  rfl

/-- Witness for the amended C5: the spend-shaped entry returned for
`dbTwoLogs` carries the tag "spend", matching the sign rule. -/
theorem history_tag_from_amount_sign_witness :
    spendEntryOfTwoLogs.Operation =
      if spendEntryOfTwoLogs.OriginalAmount < 0 then TransactionSpend
      else TransactionExchange :=
  history_tag_from_amount_sign dbTwoLogs 1 spendEntryOfTwoLogs (by decide)

/-- C10: the spend path performs no positivity check on the requested
amount: for a wallet with nonnegative balance and an amount ≤ 0, the
insufficient-funds check does not trigger, the `balance >= amount` guard
passes, the spend succeeds returning balance − amount (≥ the old balance,
so a negative-amount spend credits the wallet), and the appended log entry
carries nonnegative amount fields. -/
theorem spend_nonpositive_amount_credits :
    ∀ (db : WalletDB) (req : SpendRequest) (w : Wallet),
      PostgresRepository.GetWalletByUserIDForUpdate db req.UserID = some w →
      0 ≤ w.Balance → req.Amount ≤ 0 →
      (WalletService.Spend db req false).2 = Except.ok (w.Balance - req.Amount) ∧
      w.Balance ≤ w.Balance - req.Amount ∧
      (∃ entry, (WalletService.Spend db req false).1.walletLogs =
          db.walletLogs ++ [entry] ∧
        entry.Amount = -req.Amount ∧ entry.PlatformAmount = -req.Amount ∧
        0 ≤ entry.Amount ∧ 0 ≤ entry.PlatformAmount) := by
  intro db req w hfind hbal hamt
  have hle : req.Amount ≤ w.Balance := le_trans hamt hbal
  have hq : (decide (req.Amount ≤ w.Balance)) = true := decide_eq_true hle
  have hfind' := hfind
  unfold PostgresRepository.GetWalletByUserIDForUpdate at hfind'
  have hguard := find?_and_of_find? (fun x => x.UserID == req.UserID)
    (fun x => decide (req.Amount ≤ x.Balance)) db.wallets w hfind' hq
  unfold WalletService.Spend
  rw [hfind]
  dsimp only
  rw [if_neg (not_lt.mpr hle)]
  unfold PostgresRepository.SpendFromWallet
  rw [hguard]
  dsimp only
  refine ⟨rfl, by linarith, ⟨_, rfl, rfl, rfl, ?_, ?_⟩⟩
  · simpa using neg_nonneg.mpr hamt
  · simpa using neg_nonneg.mpr hamt

/-- Witness for C10: "spending" −5.00 from a 100.00 wallet succeeds and
credits the wallet to 105.00. -/
theorem spend_nonpositive_amount_credits_witness :
    (WalletService.Spend dbWallet100 spendReqNeg5 false).2 = Except.ok 105 ∧
    wallet100.Balance ≤ wallet100.Balance - spendReqNeg5.Amount := by
  have h := spend_nonpositive_amount_credits dbWallet100 spendReqNeg5 wallet100 rfl
    (by decide) (by decide)
  refine ⟨?_, h.2.1⟩
  rw [h.1]
  norm_num [wallet100, spendReqNeg5]

/-- C8: the repository log listing is ordered by creation time descending
(most recent first) for every caller-supplied limit and offset, and a call
with limit zero or negative behaves identically to a call with limit 50. -/
theorem get_wallet_logs_sorted_and_default_limit :
    (∀ (db : WalletDB) (userID : Nat) (limit offset : Int),
        List.Sorted PostgresRepository.CreatedDesc
          (PostgresRepository.GetWalletLogs db userID limit offset))
    ∧ (∀ (db : WalletDB) (userID : Nat) (limit offset : Int), limit ≤ 0 →
        PostgresRepository.GetWalletLogs db userID limit offset =
          PostgresRepository.GetWalletLogs db userID 50 offset) := by
  constructor
  · intro db u limit offset
    unfold PostgresRepository.GetWalletLogs
    exact List.Pairwise.sublist
      ((List.take_sublist _ _).trans (List.drop_sublist _ _))
      (List.sorted_insertionSort _ _)
  · intro db u limit offset h
    unfold PostgresRepository.GetWalletLogs
    rw [if_pos h, if_neg (by decide : ¬ (50 : Int) ≤ 0)]

/-- Witness for C8 on a concrete two-row log table: the page is sorted
newest-first and the limit-0 call equals the limit-50 call. -/
theorem get_wallet_logs_sorted_and_default_limit_witness :
    List.Sorted PostgresRepository.CreatedDesc
      (PostgresRepository.GetWalletLogs dbTwoLogs 1 0 0) ∧
    PostgresRepository.GetWalletLogs dbTwoLogs 1 0 0 =
      PostgresRepository.GetWalletLogs dbTwoLogs 1 50 0 :=
  ⟨get_wallet_logs_sorted_and_default_limit.1 dbTwoLogs 1 0 0,
   get_wallet_logs_sorted_and_default_limit.2 dbTwoLogs 1 0 0 (by decide)⟩

/-- Every scheduler step of the two-spend race preserves the reachable-state
enumeration `SpendRace.Inv`, under the serialization scenario's side
conditions (each amount alone fits the starting balance, together they
exceed it). -/
theorem spend_race_inv_step (amt0 amt1 bal : ℚ) (h1 : amt0 ≤ bal) (h2 : amt1 ≤ bal)
    (h3 : bal < amt0 + amt1) (s : SpendRace.RaceState) (i : Bool)
    (hs : SpendRace.Inv amt0 amt1 bal s) :
    SpendRace.Inv amt0 amt1 bal (SpendRace.step amt0 amt1 s i) := by
  unfold SpendRace.Inv at hs ⊢
  rcases hs with h | h | h | h | h | h | h | h | h <;> subst h <;> cases i
  -- initial state: the scheduled transaction acquires the lock
  · exact Or.inr (Or.inl rfl)
  · exact Or.inr (Or.inr (Or.inl rfl))
  -- tx0 holds the lock
  · refine Or.inr (Or.inr (Or.inr (Or.inl ?_)))
    dsimp only [SpendRace.step, SpendRace.pickAmt, SpendRace.getTx, SpendRace.setTx]
    rw [if_neg (not_lt.mpr h1), if_pos h1]
  · exact Or.inr (Or.inl rfl)
  -- tx1 holds the lock
  · exact Or.inr (Or.inr (Or.inl rfl))
  · refine Or.inr (Or.inr (Or.inr (Or.inr (Or.inl ?_))))
    dsimp only [SpendRace.step, SpendRace.pickAmt, SpendRace.getTx, SpendRace.setTx]
    rw [if_neg (not_lt.mpr h2), if_pos h2]
  -- tx0 committed, tx1 not yet started its read
  · exact Or.inr (Or.inr (Or.inr (Or.inl rfl)))
  · exact Or.inr (Or.inr (Or.inr (Or.inr (Or.inr (Or.inl rfl)))))
  -- tx1 committed, tx0 not yet started its read
  · exact Or.inr (Or.inr (Or.inr (Or.inr (Or.inr (Or.inr (Or.inl rfl))))))
  · exact Or.inr (Or.inr (Or.inr (Or.inr (Or.inl rfl))))
  -- tx0 committed, tx1 locked against the debited balance
  · exact Or.inr (Or.inr (Or.inr (Or.inr (Or.inr (Or.inl rfl)))))
  · refine Or.inr (Or.inr (Or.inr (Or.inr (Or.inr (Or.inr (Or.inr (Or.inl ?_)))))))
    dsimp only [SpendRace.step, SpendRace.pickAmt, SpendRace.getTx, SpendRace.setTx]
    rw [if_pos (by linarith : bal - amt0 < amt1)]
  -- tx1 committed, tx0 locked against the debited balance
  · refine Or.inr (Or.inr (Or.inr (Or.inr (Or.inr (Or.inr (Or.inr (Or.inr ?_)))))))
    dsimp only [SpendRace.step, SpendRace.pickAmt, SpendRace.getTx, SpendRace.setTx]
    rw [if_pos (by linarith : bal - amt1 < amt0)]
  · exact Or.inr (Or.inr (Or.inr (Or.inr (Or.inr (Or.inr (Or.inl rfl))))))
  -- both finished
  · exact Or.inr (Or.inr (Or.inr (Or.inr (Or.inr (Or.inr (Or.inr (Or.inl rfl)))))))
  · exact Or.inr (Or.inr (Or.inr (Or.inr (Or.inr (Or.inr (Or.inr (Or.inl rfl)))))))
  · exact Or.inr (Or.inr (Or.inr (Or.inr (Or.inr (Or.inr (Or.inr (Or.inr rfl)))))))
  · exact Or.inr (Or.inr (Or.inr (Or.inr (Or.inr (Or.inr (Or.inr (Or.inr rfl)))))))

/-- Running the race under any scheduler choice sequence stays inside
`SpendRace.Inv`. -/
theorem spend_race_run_inv (amt0 amt1 bal : ℚ) (h1 : amt0 ≤ bal) (h2 : amt1 ≤ bal)
    (h3 : bal < amt0 + amt1) (sched : List Bool) :
    SpendRace.Inv amt0 amt1 bal (SpendRace.run amt0 amt1 sched bal) := by
  have key : ∀ (l : List Bool) (s : SpendRace.RaceState),
      SpendRace.Inv amt0 amt1 bal s →
      SpendRace.Inv amt0 amt1 bal (l.foldl (SpendRace.step amt0 amt1) s) := by
    intro l
    induction l with
    | nil => intro s hs; exact hs
    | cons a tl ih =>
      intro s hs
      exact ih _ (spend_race_inv_step amt0 amt1 bal h1 h2 h3 s a hs)
  exact key sched _ (Or.inl rfl)

/-- C9: for two concurrent spends of amounts `amt0` and `amt1` against one
wallet, where each amount alone is at most the balance but together they
exceed it, every schedule in which both transactions finish yields exactly
one committed spend and one `insufficientFunds` rejection, and the final
balance is the initial balance minus the amount that committed. -/
theorem concurrent_spends_serialize :
    ∀ (bal amt0 amt1 : ℚ) (sched : List Bool),
      0 ≤ bal → amt0 ≤ bal → amt1 ≤ bal → bal < amt0 + amt1 →
      (SpendRace.run amt0 amt1 sched bal).tx0.pc = SpendRace.SpendPhase.done →
      (SpendRace.run amt0 amt1 sched bal).tx1.pc = SpendRace.SpendPhase.done →
      (((SpendRace.run amt0 amt1 sched bal).tx0.result =
            some SpendRace.SpendResult.committed ∧
        (SpendRace.run amt0 amt1 sched bal).tx1.result =
            some SpendRace.SpendResult.insufficientFunds ∧
        (SpendRace.run amt0 amt1 sched bal).balance = bal - amt0)
       ∨ ((SpendRace.run amt0 amt1 sched bal).tx0.result =
            some SpendRace.SpendResult.insufficientFunds ∧
        (SpendRace.run amt0 amt1 sched bal).tx1.result =
            some SpendRace.SpendResult.committed ∧
        (SpendRace.run amt0 amt1 sched bal).balance = bal - amt1)) := by
  intro bal amt0 amt1 sched _h0 h1 h2 h3 hdone0 hdone1
  have hinv := spend_race_run_inv amt0 amt1 bal h1 h2 h3 sched
  unfold SpendRace.Inv at hinv
  rcases hinv with h | h | h | h | h | h | h | h | h
  · rw [h] at hdone0; simp [SpendRace.initState] at hdone0
  · rw [h] at hdone0; simp at hdone0
  · rw [h] at hdone1; simp at hdone1
  · rw [h] at hdone1; simp at hdone1
  · rw [h] at hdone0; simp at hdone0
  · rw [h] at hdone1; simp at hdone1
  · rw [h] at hdone0; simp at hdone0
  · rw [h]; exact Or.inl ⟨rfl, rfl, rfl⟩
  · rw [h]; exact Or.inr ⟨rfl, rfl, rfl⟩

/-- Witness for C9: balance 100.00, concurrent spends of 60.00 and 70.00
under the schedule where transaction 0 runs first: transaction 0 commits,
transaction 1 is rejected with insufficient funds, and the final balance is
40.00. -/
theorem concurrent_spends_serialize_witness :
    (((SpendRace.run 60 70 [false, false, true, true] 100).tx0.result =
          some SpendRace.SpendResult.committed ∧
      (SpendRace.run 60 70 [false, false, true, true] 100).tx1.result =
          some SpendRace.SpendResult.insufficientFunds ∧
      (SpendRace.run 60 70 [false, false, true, true] 100).balance = 100 - 60)
     ∨ ((SpendRace.run 60 70 [false, false, true, true] 100).tx0.result =
          some SpendRace.SpendResult.insufficientFunds ∧
      (SpendRace.run 60 70 [false, false, true, true] 100).tx1.result =
          some SpendRace.SpendResult.committed ∧
      (SpendRace.run 60 70 [false, false, true, true] 100).balance = 100 - 70)) :=
  concurrent_spends_serialize 100 60 70 [false, false, true, true]
    (by decide) (by decide) (by decide) (by norm_num)
    (by norm_num [SpendRace.run, SpendRace.step, SpendRace.initState,
      SpendRace.pickAmt, SpendRace.getTx, SpendRace.setTx])
    (by norm_num [SpendRace.run, SpendRace.step, SpendRace.initState,
      SpendRace.pickAmt, SpendRace.getTx, SpendRace.setTx])

end WalletSpec
